import Mathlib

/-!
Shallow embedding of the transform stage of the retail-store ETL pipeline
(`src/transform/transform.py` together with the schema constants of
`src/modules/constants.py`), and proofs about the claims of its
specification.

A pandas `DataFrame` is modelled column-wise: an ordered association list
from column label to the list of cell values of that column.  A cell value
is a string, a float (modelled as a rational, `NaN` being the separate
missing marker), a parsed date, or the missing marker `NA` (covering both
`NaN` and `NaT`).  Fallible Python code (raised exceptions) is modelled
with `Except PyError`.
-/

/-- A single cell of a pandas dataframe.  `vNum` is a non-NaN float64 value
(modelled as a rational); `vDate` a parsed datetime (kept as its canonical
text); `vNA` the missing marker (`np.nan` / `NaT` / `None`). -/
inductive Value where
  | vStr (s : String)
  | vNum (q : ℚ)
  | vDate (d : String)
  | vNA
deriving DecidableEq, Repr

/-- `pd.isna` on one cell. -/
def Value.isNA : Value → Bool
  | .vNA => true
  | _ => false

/-- An in-memory tabular dataset: ordered list of (column label, cells).
pandas keeps all columns the same length; the embedding states that
length side condition explicitly where a proof needs it. -/
structure DataFrame where
  data : List (String × List Value)
deriving DecidableEq, Repr

/-- `df.columns`, in order. -/
def DataFrame.columns (df : DataFrame) : List String :=
  df.data.map Prod.fst

/-- `df[c]`: the cells of the first column labelled `c`, if present. -/
def DataFrame.getCol (df : DataFrame) (c : String) : Option (List Value) :=
  (df.data.find? (fun p => p.1 = c)).map Prod.snd

/-- The cell of column `c` at row `i`, if both exist. -/
def DataFrame.cell (df : DataFrame) (c : String) (i : Nat) : Option Value :=
  match df.getCol c with
  | some col => col[i]?
  | none => none

/-- `df[c] = f(df[c])`: rewrite the cells of every column labelled `c`.
When no column is labelled `c` this is the identity, which is also how the
source guards its per-column loops (`if col in df.columns:`). -/
def DataFrame.mapCol (df : DataFrame) (c : String) (f : List Value → List Value) :
    DataFrame :=
  ⟨df.data.map (fun p => if p.1 = c then (p.1, f p.2) else p)⟩

/-- `df[c] = s` for a whole new column: overwrite an existing column in
place, else append the new column at the end (pandas assignment order). -/
def DataFrame.setCol (df : DataFrame) (c : String) (s : List Value) : DataFrame :=
  if c ∈ df.columns then ⟨df.data.map (fun p => if p.1 = c then (c, s) else p)⟩
  else ⟨df.data ++ [(c, s)]⟩

/-- `df.drop(columns=[c])`. -/
def DataFrame.dropCol (df : DataFrame) (c : String) : DataFrame :=
  ⟨df.data.filter (fun p => p.1 ≠ c)⟩

/-- `df[cols]`: the listed columns, in the order of `cols`.  The source only
selects columns it has already checked to be present. -/
def DataFrame.select (df : DataFrame) (cols : List String) : DataFrame :=
  ⟨cols.filterMap (fun c => (df.getCol c).map (fun s => (c, s)))⟩

/-- `df.columns = df.columns.map f` (relabelling only). -/
def DataFrame.renameColumns (df : DataFrame) (f : String → String) : DataFrame :=
  ⟨df.data.map (fun p => (f p.1, p.2))⟩

/-- `len(df)`: the number of rows (length of the first column; 0 when the
frame has no columns). -/
def DataFrame.nrows (df : DataFrame) : Nat :=
  match df.data with
  | [] => 0
  | p :: _ => p.2.length

/-- The count of non-missing cells of column `c` (used to state the
imputation frame property). -/
def DataFrame.nonNACount (df : DataFrame) (c : String) : Nat :=
  ((df.getCol c).getD []).countP (fun v => !v.isNA)

/-! ### Python string primitives used by the source -/

/-- One step of Python `str.title()`: a letter is uppercased when the
previous character is not a cased (alphabetic) character, lowercased
otherwise; non-letters pass through. -/
def pyTitleGo : Bool → List Char → List Char
  | _, [] => []
  | prevCased, c :: cs =>
      let c2 := if c.isAlpha then (if prevCased then c.toLower else c.toUpper) else c
      c2 :: pyTitleGo c.isAlpha cs

/-- Python `str.title()`. -/
def pyTitle (s : String) : String :=
  ⟨pyTitleGo false s.data⟩

/-- Python `str.strip()` (no argument): remove leading and trailing
whitespace. -/
def pyStrip (s : String) : String :=
  ⟨((s.data.dropWhile Char.isWhitespace).reverse.dropWhile Char.isWhitespace).reverse⟩

/-- Python `str.lower()`. -/
def pyLower (s : String) : String :=
  ⟨s.data.map Char.toLower⟩

/-- Python `str.split(sep)` for a one-character separator, including the
empty segments Python produces around adjacent separators. -/
def splitOnCharGo (sep : Char) : List Char → List Char → List (List Char)
  | [], acc => [acc.reverse]
  | c :: cs, acc =>
      if c = sep then acc.reverse :: splitOnCharGo sep cs []
      else splitOnCharGo sep cs (c :: acc)

/-- Python `str.split(sep)` for a one-character separator. -/
def splitOnChar (sep : Char) (s : String) : List String :=
  (splitOnCharGo sep s.data []).map (fun l => ⟨l⟩)

/-- The column-label cleaning pipeline of `rename_columns`
(transform.py lines 15-20): `.str.strip().str.title().str.replace(' ', '_')`
applied to one label.  `.str.replace` with `regex=False` and the
one-character pattern replaces every space character by an underscore. -/
def normalizeLabel (s : String) : String :=
  ⟨(pyTitle (pyStrip s)).data.map (fun c => if c = ' ' then '_' else c)⟩

/-- Decimal digits to a natural number. -/
def digitsToNat (ds : List Char) : Nat :=
  ds.foldl (fun n c => 10 * n + (c.toNat - 48)) 0

/-- Fractional digits of `r / d` (up to the float64 print budget of 17
digits; the denominators arising from parsed decimals always terminate). -/
def fracDigits : Nat → Nat → Nat → List Nat
  | _, _, 0 => []
  | r, d, k + 1 =>
      if r = 0 then []
      else (r * 10 / d) :: fracDigits (r * 10 % d) d k

/-- Python `str(float)` for a non-NaN float64, e.g. `3.0`, `3.5`, `-0.25`
(scientific notation for extreme magnitudes is not exercised by this
pipeline and is not modelled). -/
def pyFloatStr (x : ℚ) : String :=
  let sign := if x < 0 then "-" else ""
  let n := x.num.natAbs
  let d := x.den
  let ds := fracDigits (n % d) d 17
  let frac := if ds.isEmpty then "0" else String.join (ds.map (fun k => toString k))
  sign ++ toString (n / d) ++ "." ++ frac

/-- Python `str(cell)`, as `Series.astype(str)` applies it elementwise:
a float `NaN` cell renders as the literal text `"nan"`. -/
def Value.astype_str : Value → String
  | .vStr s => s
  | .vNum q => pyFloatStr q
  | .vDate d => d
  | .vNA => "nan"

/-- The float parser behind `pd.to_numeric`: optional sign, decimal digits
with at most one point, surrounding whitespace tolerated; `nan` parses to
the missing float.  (Exponent notation and `inf` are not exercised by this
pipeline and are not modelled.)  Returns `none` when the text is not a
number — including the `nan` spelling, whose parse is the missing marker. -/
def pyParseFloat (s : String) : Option ℚ :=
  let t := pyStrip s
  if pyLower t = "nan" then none
  else
    let cs := t.data
    let signed : ℚ × List Char :=
      match cs with
      | '+' :: r => (1, r)
      | '-' :: r => (-1, r)
      | r => (1, r)
    let ip := signed.2.takeWhile Char.isDigit
    let rest := signed.2.dropWhile Char.isDigit
    match rest with
    | [] => if ip.isEmpty then none else some (signed.1 * (digitsToNat ip : ℚ))
    | '.' :: fr =>
        let fp := fr.takeWhile Char.isDigit
        let rest2 := fr.dropWhile Char.isDigit
        if rest2.isEmpty && !(ip.isEmpty && fp.isEmpty) then
          some (signed.1 * ((digitsToNat ip : ℚ) + (digitsToNat fp : ℚ) / (10 ^ fp.length : ℚ)))
        else none
    | _ => none

/-- The date parser behind `pd.to_datetime`, restricted to the ISO
`YYYY-MM-DD` shape this dataset uses (pandas accepts more formats; the
claims only need parse-or-missing).  Returns the canonical text on
success. -/
def pyParseDate (s : String) : Option String :=
  let t := pyStrip s
  match splitOnChar '-' t with
  | [y, m, d] =>
      if y.length = 4 && y.data.all Char.isDigit
        && !m.isEmpty && m.length ≤ 2 && m.data.all Char.isDigit
        && 1 ≤ digitsToNat m.data && digitsToNat m.data ≤ 12
        && !d.isEmpty && d.length ≤ 2 && d.data.all Char.isDigit
        && 1 ≤ digitsToNat d.data && digitsToNat d.data ≤ 31
      then some t else none
  | _ => none

/-! ### Schema constants (`src/modules/constants.py`) -/

/-- The 11 canonical column names, in declared order. -/
def EXPECTED_COLS : List String :=
  ["Transaction_Id", "Customer_Id", "Category", "Item", "Price_Per_Unit",
   "Quantity", "Total_Spent", "Payment_Method", "Location",
   "Transaction_Date", "Discount_Applied"]

/-- The string/categorical-role columns. -/
def STRING_COLS : List String :=
  ["Transaction_Id", "Customer_Id", "Category", "Item", "Payment_Method",
   "Location"]

/-- The numeric-role columns. -/
def NUMERIC_COLS : List String :=
  ["Price_Per_Unit", "Quantity", "Total_Spent"]

/-! ### Errors -/

/-- The Python exceptions the transform stage can raise.
`schemaValidationError` models the `ValueError` raised at transform.py
line 28 (the spec's `SchemaValidationError`); its payload is the
`missing_columns` list that the raised message embeds.  `keyError` models
column access on an absent label.  `unboundLocalError` models reading a
local variable before its first assignment. -/
inductive PyError where
  | schemaValidationError (missingColumns : List String)
  | keyError (key : String)
  | unboundLocalError (name : String)
deriving DecidableEq, Repr

/-! ### Stage 1: `rename_columns` (transform.py lines 6-36) -/

/-- `missing_columns = [col for col in EXPECTED_COLS if col not in df.columns]`
computed over the relabelled frame. -/
def missingColumnsOf (df : DataFrame) : List String :=
  EXPECTED_COLS.filter (fun c => decide (c ∉ (df.renameColumns normalizeLabel).columns))

/-- `rename_columns`: normalize every column label, fail with the
missing-columns `ValueError` when any expected column is absent, otherwise
return exactly the expected columns in declared order (extra columns are
only logged, then dropped by the final `df[EXPECTED_COLS]`). -/
def rename_columns (df : DataFrame) : Except PyError DataFrame :=
  let df1 := df.renameColumns normalizeLabel
  let missing_columns := missingColumnsOf df
  if missing_columns = [] then .ok (df1.select EXPECTED_COLS)
  else .error (.schemaValidationError missing_columns)

/-! ### Stage 2: `data_overview` (transform.py lines 38-82) -/

/-- The default `invalid_values` sentinel list. -/
def defaultInvalidValues : List String :=
  ["error", "unknown", "nan", "none", "na", ""]

/-- String-role cell cleaning inside `data_overview`:
`.astype(str).str.strip().str.lower().replace(invalid_values, np.nan)`. -/
def auditStringCell (invalid : List String) (v : Value) : Value :=
  let s := pyLower (pyStrip v.astype_str)
  if invalid.contains s then .vNA else .vStr s

/-- Numeric-role cell cleaning inside `data_overview`:
`.astype(str).str.strip().replace(invalid_values, np.nan)` (no lowering). -/
def auditNumericCell (invalid : List String) (v : Value) : Value :=
  let s := pyStrip v.astype_str
  if invalid.contains s then .vNA else .vStr s

/-- `for col in COLS: if col in df.columns: df[col] = df[col].map f` —
the per-column loops of `data_overview` and `convert_data_types`. -/
def mapCols (cols : List String) (f : Value → Value) (df : DataFrame) : DataFrame :=
  cols.foldl (fun d c => d.mapCol c (fun col => col.map f)) df

/-- Approximation of the pandas dtype label of a column, used only in the
`data_type` entry of the quality report. -/
def dtypeOf (s : List Value) : String :=
  if !s.isEmpty && s.all (fun v => v.isNA || (match v with | .vNum _ => true | _ => false)) then
    "float64"
  else if !s.isEmpty && s.all (fun v => v.isNA || (match v with | .vDate _ => true | _ => false)) then
    "datetime64[ns]"
  else "object"

/-- The quality-report dictionary `data_overview` returns. -/
structure Stats where
  row_count : Nat
  missing_values : List (String × Nat)
  data_type : List (String × String)
deriving DecidableEq, Repr

/-- `data_overview`: on an internal copy, normalize sentinel tokens of the
string-role and numeric-role columns to the missing marker, then report
row count, per-column missing counts and per-column dtypes.  Only the
statistics dictionary is returned; the sentinel-cleaned copy is local to
the call (the source mutates its own `df = df.copy()` and returns
`stats`).  The `stage` argument is used only for logging. -/
def data_overview (df : DataFrame) (stage : String)
    (invalid_values : Option (List String)) : Stats :=
  let _ := stage
  let invalid := invalid_values.getD defaultInvalidValues
  let df1 := mapCols STRING_COLS (auditStringCell invalid) df
  let df2 := mapCols NUMERIC_COLS (auditNumericCell invalid) df1
  { row_count := df2.nrows
    missing_values := df2.data.map (fun p => (p.1, (p.2.filter Value.isNA).length))
    data_type := df2.data.map (fun p => (p.1, dtypeOf p.2)) }

/-! ### Stage 3: `convert_data_types` (transform.py lines 84-109) -/

/-- String-role cell handling in `convert_data_types`:
`.astype(str).replace(' ', '_')`.  Note this is `Series.replace` with two
scalars, which substitutes only a cell whose **entire** value equals a
single space (it is not the substring replacement `.str.replace`). -/
def convertStringCell (v : Value) : Value :=
  let s := v.astype_str
  if s = " " then .vStr "_" else .vStr s

/-- `pd.to_numeric(col, errors='coerce')` on one cell: numbers pass
through, missing stays missing, text parses or coerces to missing.
(A datetime cell cannot occur in a numeric-role column at this stage and
is coerced to missing.) -/
def toNumericCoerce (v : Value) : Value :=
  match v with
  | .vNum q => .vNum q
  | .vNA => .vNA
  | .vStr s =>
      match pyParseFloat s with
      | some q => .vNum q
      | none => .vNA
  | .vDate _ => .vNA

/-- `pd.to_datetime(col, errors='coerce')` on one cell: dates pass through,
missing stays missing (`NaT`), text parses or coerces to `NaT`; a numeric
cell is interpreted by pandas as an epoch offset, represented here by its
printed value. -/
def toDatetimeCoerce (v : Value) : Value :=
  match v with
  | .vDate d => .vDate d
  | .vNA => .vNA
  | .vStr s =>
      match pyParseDate s with
      | some d => .vDate d
      | none => .vNA
  | .vNum q => .vDate (pyFloatStr q)

/-- `convert_data_types`: whole-cell space replacement on string-role
columns, numeric coercion on numeric-role columns, datetime coercion on
`Transaction_Date`; never fails. -/
def convert_data_types (df : DataFrame) : DataFrame :=
  let df1 := mapCols STRING_COLS convertStringCell df
  let df2 := mapCols NUMERIC_COLS toNumericCoerce df1
  df2.mapCol "Transaction_Date" (fun col => col.map toDatetimeCoerce)

/-! ### Stage 4: `clean_price_per_unit` (transform.py lines 111-147) -/

/-- `df['Item'].str.split('_').str[1].astype(str)` on one cell: the `.str`
accessor yields `NaN` on a non-string cell and on an out-of-range segment
index, and the trailing `astype(str)` then renders that `NaN` as the
literal text `"nan"` — so the derived key is always a string. -/
def deriveItemNumber (v : Value) : Value :=
  match v with
  | .vStr s =>
      match (splitOnChar '_' s)[1]? with
      | some seg => .vStr seg
      | none => .vStr "nan"
  | _ => .vStr "nan"

/-- The rows entering the price lookup:
`df.dropna(subset=['Item_Number', 'Price_Per_Unit'])` restricted to the
two columns of interest, in row order. -/
def priceMapOf (item_numbers prices : List Value) : List (Value × Value) :=
  (item_numbers.zip prices).filter (fun p => !p.1.isNA && !p.2.isNA)

/-- Lookup in the dict built by `.set_index('Item_Number')['Price_Per_Unit']
.to_dict()`: on duplicate keys the later row overwrites, so the lookup
finds the last entry for the key. -/
def lastLookup (m : List (Value × Value)) (k : Value) : Option Value :=
  (m.reverse.find? (fun p => decide (p.1 = k))).map Prod.snd

/-- `np.where(price.isna() & item_number.notna(), item_number.map(price_map),
price)` rowwise; `.map` on a key absent from the dict yields `NaN`. -/
def imputePrices (price_map : List (Value × Value))
    (item_numbers prices : List Value) : List Value :=
  (item_numbers.zip prices).map (fun p =>
    if p.2.isNA && !p.1.isNA then (lastLookup price_map p.1).getD .vNA else p.2)

/-- `clean_price_per_unit`: derive the transient `Item_Number` column,
build the item-to-price dict from rows with both fields present, impute
missing prices through it, then drop the transient column.  Column access
on an absent label is the pandas `KeyError`, in source order
(`Price_Per_Unit` is read first, for the NaN count). -/
def clean_price_per_unit (df : DataFrame) : Except PyError DataFrame :=
  match df.getCol "Price_Per_Unit", df.getCol "Item" with
  | none, _ => .error (.keyError "Price_Per_Unit")
  | some _, none => .error (.keyError "Item")
  | some prices, some items =>
      let item_numbers := items.map deriveItemNumber
      let price_map := priceMapOf item_numbers prices
      let new_prices := imputePrices price_map item_numbers prices
      .ok (((df.setCol "Item_Number" item_numbers).setCol
              "Price_Per_Unit" new_prices).dropCol "Item_Number")

/-! ### Orchestrator: `transform_data` (transform.py lines 149-175) -/

/-- `transform_data`, as written in the source.  Its first statement is
`df_clean = rename_columns(df_clean)`: the right-hand side reads the local
variable `df_clean` before any assignment to it, so Python raises
`UnboundLocalError` there on every call (the parameter `df` is never
used).  The remaining steps are modelled in source order but are
unreachable; step 2 discards the return value of `data_overview`. -/
def transform_data (df : DataFrame) : Except PyError DataFrame := do
  let _ := df
  let df_clean : DataFrame ← Except.error (PyError.unboundLocalError "df_clean")
  let df_clean ← rename_columns df_clean
  let _ := data_overview df_clean "INITIAL" none
  let df_clean := convert_data_types df_clean
  let df_clean ← clean_price_per_unit df_clean
  pure df_clean

/-- C8 failing input: a string-role cell whose text contains an internal
space. -/
def dfCreditCard : DataFrame :=
  ⟨[("Payment_Method", [Value.vStr "Credit Card", Value.vStr " "])]⟩

/-- C4 failing input: two rows whose `Item` text has no underscore
separator, one of them with a missing price. -/
def dfMalformedItems : DataFrame :=
  ⟨[("Item", [Value.vStr "Coffee", Value.vStr "Tea"]),
    ("Price_Per_Unit", [Value.vNA, Value.vNum 5])]⟩

/-- The cell the pipeline's remaining stages produce from the dataset that
was audited: in `transform_data` (lines 158-168) the return value of
`data_overview` is discarded, so stage 3 receives the audit's input
unchanged and the final dataset is `clean_price_per_unit ∘
convert_data_types` of it. -/
def pipelineCellAfterAudit (df : DataFrame) (c : String) (i : Nat) :
    Except PyError (Option Value) :=
  (clean_price_per_unit (convert_data_types df)).map (fun out => out.cell c i)

/-- A schema-complete one-row dataset whose `Location` holds the sentinel
text `"unknown"`. -/
def dfSentinel : DataFrame :=
  ⟨[("Transaction_Id", [Value.vStr "TXN1"]),
    ("Customer_Id", [Value.vStr "C1"]),
    ("Category", [Value.vStr "Food"]),
    ("Item", [Value.vStr "Item_7"]),
    ("Price_Per_Unit", [Value.vNum 3]),
    ("Quantity", [Value.vNum 2]),
    ("Total_Spent", [Value.vNum 6]),
    ("Payment_Method", [Value.vStr "Cash"]),
    ("Location", [Value.vStr "unknown"]),
    ("Transaction_Date", [Value.vStr "2024-01-05"]),
    ("Discount_Applied", [Value.vStr "True"])]⟩

/-- Witness input for the amended C3. -/
def dfAuditWitness : DataFrame :=
  ⟨[("Location", [Value.vStr "unknown"]),
    ("Item", [Value.vStr "Item_1"]),
    ("Price_Per_Unit", [Value.vNum 1])]⟩

/-- Witness input for C5: the spec's round-trip scenario (a priced
`Item_7` row fills the unpriced `Item_7` row) ... -/
def dfRoundTrip : DataFrame :=
  ⟨[("Item", [Value.vStr "Item_7", Value.vStr "Item_7"]),
    ("Price_Per_Unit", [Value.vNA, Value.vNum (7 / 2)])]⟩

/-- ... and the spec's no-entry scenario (a lone unpriced `Item_9` row
stays missing). -/
def dfLoneItem : DataFrame :=
  ⟨[("Item", [Value.vStr "Item_9"]),
    ("Price_Per_Unit", [Value.vNA])]⟩

/-- Witness input for C6: one priced and one unpriced `Item_7` row. -/
def dfPresentPrice : DataFrame :=
  ⟨[("Item", [Value.vStr "Item_7", Value.vStr "Item_7"]),
    ("Price_Per_Unit", [Value.vNum 2, Value.vNA])]⟩

/-- The frame `clean_price_per_unit` returns on `dfPresentPrice`. -/
def outPresentPrice : DataFrame :=
  ⟨[("Item", [Value.vStr "Item_7", Value.vStr "Item_7"]),
    ("Price_Per_Unit", [Value.vNum 2, Value.vNum 2])]⟩

/-! ### Access lemmas for the dataframe operations -/

theorem DataFrame.getCol_mapCol (df : DataFrame) (c : String)
    (f : List Value → List Value) (c2 : String) :
    (df.mapCol c f).getCol c2 =
      if c2 = c then (df.getCol c2).map f else df.getCol c2 := by
  obtain ⟨l⟩ := df
  simp only [DataFrame.mapCol, DataFrame.getCol, List.find?_map]
  have hpred : ((fun p : String × List Value => decide (p.1 = c2)) ∘
      (fun p : String × List Value => if p.1 = c then (p.1, f p.2) else p)) =
      (fun p : String × List Value => decide (p.1 = c2)) := by
    funext p
    by_cases hc : p.1 = c <;> simp [hc]
  rw [hpred]
  cases hfind : l.find? (fun p => decide (p.1 = c2)) with
  | none => by_cases h : c2 = c <;> simp [h]
  | some q =>
      have hq : q.1 = c2 := by simpa using List.find?_some hfind
      by_cases h : c2 = c <;> simp [h, hq]

theorem DataFrame.cell_mapCol_ne (df : DataFrame) (c : String)
    (f : List Value → List Value) (c2 : String) (i : Nat) (h : c2 ≠ c) :
    (df.mapCol c f).cell c2 i = df.cell c2 i := by
  simp [DataFrame.cell, DataFrame.getCol_mapCol, h]

theorem DataFrame.cell_mapCol_self (df : DataFrame) (c : String)
    (g : Value → Value) (i : Nat) :
    (df.mapCol c (fun col => col.map g)).cell c i = (df.cell c i).map g := by
  simp only [DataFrame.cell, DataFrame.getCol_mapCol, if_pos rfl]
  cases df.getCol c with
  | none => rfl
  | some col => simp

theorem getCol_mapCols_not_mem (cols : List String) (g : Value → Value)
    (df : DataFrame) (c : String) (h : c ∉ cols) :
    (mapCols cols g df).getCol c = df.getCol c := by
  induction cols generalizing df with
  | nil => rfl
  | cons c0 t ih =>
      simp only [mapCols, List.foldl_cons]
      have ht : c ∉ t := fun hm => h (List.mem_cons_of_mem _ hm)
      have hne : c ≠ c0 := fun he => h (he ▸ List.mem_cons_self _ _)
      have := ih (df.mapCol c0 (fun col => col.map g)) ht
      simp only [mapCols] at this
      rw [this, DataFrame.getCol_mapCol]
      simp [hne]

theorem getCol_mapCols_mem (cols : List String) (g : Value → Value)
    (df : DataFrame) (c : String) (hnd : cols.Nodup) (h : c ∈ cols) :
    (mapCols cols g df).getCol c = (df.getCol c).map (List.map g) := by
  induction cols generalizing df with
  | nil => cases h
  | cons c0 t ih =>
      simp only [mapCols, List.foldl_cons]
      rcases List.mem_cons.mp h with rfl | hmem
      · have hnt : c ∉ t := (List.nodup_cons.mp hnd).1
        have := getCol_mapCols_not_mem t g (df.mapCol c (fun col => col.map g)) c hnt
        simp only [mapCols] at this
        rw [this, DataFrame.getCol_mapCol]
        simp
      · have hne : c ≠ c0 := fun he => (List.nodup_cons.mp hnd).1 (he ▸ hmem)
        have := ih (df.mapCol c0 (fun col => col.map g)) (List.nodup_cons.mp hnd).2 hmem
        simp only [mapCols] at this
        rw [this, DataFrame.getCol_mapCol]
        simp [hne]

theorem cell_mapCols_not_mem (cols : List String) (g : Value → Value)
    (df : DataFrame) (c : String) (i : Nat) (h : c ∉ cols) :
    (mapCols cols g df).cell c i = df.cell c i := by
  simp [DataFrame.cell, getCol_mapCols_not_mem cols g df c h]

theorem cell_mapCols_mem (cols : List String) (g : Value → Value)
    (df : DataFrame) (c : String) (i : Nat) (hnd : cols.Nodup) (h : c ∈ cols) :
    (mapCols cols g df).cell c i = (df.cell c i).map g := by
  simp only [DataFrame.cell, getCol_mapCols_mem cols g df c hnd h]
  cases df.getCol c with
  | none => rfl
  | some col => simp

theorem DataFrame.getCol_setCol (df : DataFrame) (c : String) (s : List Value)
    (c2 : String) :
    (df.setCol c s).getCol c2 = if c2 = c then some s else df.getCol c2 := by
  obtain ⟨l⟩ := df
  simp only [DataFrame.setCol, DataFrame.columns, DataFrame.getCol]
  by_cases hin : c ∈ l.map Prod.fst
  · simp only [hin, if_true]
    rw [List.find?_map]
    have hpred : ((fun p : String × List Value => decide (p.1 = c2)) ∘
        (fun p : String × List Value => if p.1 = c then (c, s) else p)) =
        (fun p : String × List Value => decide (p.1 = c2)) := by
      funext p
      by_cases hc : p.1 = c <;> simp [hc]
    rw [hpred]
    cases hfind : l.find? (fun p => decide (p.1 = c2)) with
    | none =>
        by_cases h : c2 = c
        · subst h
          obtain ⟨p, hp, hp1⟩ := List.mem_map.mp hin
          have := List.find?_eq_none.mp hfind p hp
          simp [hp1] at this
        · simp [h]
    | some q =>
        have hq : q.1 = c2 := by simpa using List.find?_some hfind
        by_cases h : c2 = c <;> simp [h, hq]
  · simp only [hin, if_false]
    rw [List.find?_append]
    by_cases h : c2 = c
    · subst h
      have hnone : l.find? (fun p => decide (p.1 = c2)) = none := by
        rw [List.find?_eq_none]
        intro p hp
        simp only [decide_eq_true_eq]
        intro hpc
        exact hin (List.mem_map.mpr ⟨p, hp, hpc⟩)
      simp [hnone, List.find?]
    · have hcc2 : ¬(c = c2) := fun he => h he.symm
      have hone : ([((c, s) : String × List Value)].find? (fun p => decide (p.1 = c2))) = none := by
        simp [List.find?, hcc2]
      simp [hone, h]

theorem DataFrame.cell_setCol_ne (df : DataFrame) (c : String) (s : List Value)
    (c2 : String) (i : Nat) (h : c2 ≠ c) :
    (df.setCol c s).cell c2 i = df.cell c2 i := by
  simp [DataFrame.cell, DataFrame.getCol_setCol, h]

theorem DataFrame.getCol_dropCol (df : DataFrame) (c : String) (c2 : String) :
    (df.dropCol c).getCol c2 = if c2 = c then none else df.getCol c2 := by
  obtain ⟨l⟩ := df
  simp only [DataFrame.dropCol, DataFrame.getCol]
  induction l with
  | nil => by_cases h : c2 = c <;> simp [h]
  | cons p t ih =>
      rw [List.filter_cons]
      by_cases hp : p.1 = c
      · have hd : (decide (p.1 ≠ c)) = false := by simp [hp]
        rw [hd]
        by_cases h : c2 = c
        · rw [if_neg (by simp)]
          rw [ih]
          simp [h]
        · have hne : ¬(p.1 = c2) := by rw [hp]; exact fun he => h he.symm
          rw [if_neg (by simp), List.find?_cons_of_neg _ (by simpa using hne)]
          rw [ih]
      · have hd : (decide (p.1 ≠ c)) = true := by simp [hp]
        rw [hd, if_pos rfl]
        by_cases h2 : p.1 = c2
        · have hc2 : ¬(c2 = c) := fun he => hp (h2.trans he)
          rw [List.find?_cons_of_pos _ (by simpa using h2),
            List.find?_cons_of_pos _ (by simpa using h2), if_neg hc2]
        · rw [List.find?_cons_of_neg _ (by simpa using h2),
            List.find?_cons_of_neg _ (by simpa using h2)]
          exact ih

theorem DataFrame.cell_dropCol_ne (df : DataFrame) (c : String) (c2 : String)
    (i : Nat) (h : c2 ≠ c) :
    (df.dropCol c).cell c2 i = df.cell c2 i := by
  simp [DataFrame.cell, DataFrame.getCol_dropCol, h]

theorem Value.isNA_eq_false_iff (v : Value) : v.isNA = false ↔ v ≠ .vNA := by
  cases v <;> simp [Value.isNA]

@[simp] theorem Value.isNA_vNA : (Value.vNA).isNA = true := rfl

@[simp] theorem Value.isNA_vStr (s : String) : (Value.vStr s).isNA = false := rfl

@[simp] theorem Value.isNA_vNum (q : ℚ) : (Value.vNum q).isNA = false := rfl

@[simp] theorem Value.isNA_vDate (d : String) : (Value.vDate d).isNA = false := rfl

/-- Pointwise non-decrease of a Boolean count between equally long lists. -/
theorem countP_le_of_pointwise (p : Value → Bool) (l1 l2 : List Value)
    (hlen : l1.length = l2.length)
    (h : ∀ (i : Nat) (a : Value), l1[i]? = some a → p a = true →
      ∃ b, l2[i]? = some b ∧ p b = true) :
    l1.countP p ≤ l2.countP p := by
  induction l1 generalizing l2 with
  | nil => simp
  | cons a t ih =>
      cases l2 with
      | nil => simp at hlen
      | cons b t2 =>
          have ht : t.countP p ≤ t2.countP p := by
            apply ih t2 (by simpa using hlen)
            intro i a2 ha2 hpa2
            have := h (i + 1) a2 (by simpa using ha2) hpa2
            simpa using this
          by_cases hpa : p a = true
          · have hpb : p b = true := by
              obtain ⟨b2, hb2, hp2⟩ := h 0 a (by simp) hpa
              have hbb : b = b2 := by simpa using hb2
              exact hbb ▸ hp2
            simp [List.countP_cons, hpa, hpb]
            omega
          · have hpa2 : p a = false := by simpa using hpa
            simp only [List.countP_cons, hpa2, if_false]
            cases hpb : p b <;> simp <;> omega

/-- The string-role columns avoid the numeric-role names, the date column
and the transient imputation key. -/
theorem string_cols_facts (col : String) (h : col ∈ STRING_COLS) :
    col ∉ NUMERIC_COLS ∧ col ≠ "Transaction_Date" ∧
      col ≠ "Price_Per_Unit" ∧ col ≠ "Item_Number" := by
  simp only [STRING_COLS, List.mem_cons, List.not_mem_nil, or_false] at h
  rcases h with rfl | rfl | rfl | rfl | rfl | rfl <;> decide

/-- The numeric-role columns avoid the string-role names and the date
column. -/
theorem numeric_cols_facts (col : String) (h : col ∈ NUMERIC_COLS) :
    col ∉ STRING_COLS ∧ col ≠ "Transaction_Date" := by
  simp only [NUMERIC_COLS, List.mem_cons, List.not_mem_nil, or_false] at h
  rcases h with rfl | rfl | rfl <;> decide

theorem string_cols_nodup : STRING_COLS.Nodup := by decide

theorem numeric_cols_nodup : NUMERIC_COLS.Nodup := by decide

/-! ### Claims -/

/-- C1: the spec says `transform_data` completes all four sub-stages and
returns the final cleaned dataset for every schema-complete input, and
that re-invocation is deterministic.  The source instead reads the local
`df_clean` before its first assignment (`df_clean = rename_columns(df_clean)`,
transform.py line 154), so every invocation raises `UnboundLocalError` and
no dataset is ever returned. -/
theorem c1_transform_data_raises_unbound_local (df : DataFrame) :
    transform_data df = .error (.unboundLocalError "df_clean") := rfl

/-- C2: for every input whose normalized column labels miss at least one
expected column, `rename_columns` fails with the schema-validation error
whose payload names exactly the missing expected columns, and no dataset
is produced. -/
theorem c2_missing_columns_schema_error (df : DataFrame)
    (h : ∃ c ∈ EXPECTED_COLS, c ∉ (df.renameColumns normalizeLabel).columns) :
    rename_columns df = .error (.schemaValidationError (missingColumnsOf df)) ∧
      ∀ c, c ∈ missingColumnsOf df ↔
        (c ∈ EXPECTED_COLS ∧ c ∉ (df.renameColumns normalizeLabel).columns) := by
  obtain ⟨c, hc, hnc⟩ := h
  have hmem : c ∈ missingColumnsOf df := by
    simp only [missingColumnsOf, List.mem_filter, decide_eq_true_eq]
    exact ⟨hc, hnc⟩
  have hne : missingColumnsOf df ≠ [] := List.ne_nil_of_mem hmem
  constructor
  · simp only [rename_columns]
    rw [if_neg hne]
  · intro c2
    simp [missingColumnsOf, List.mem_filter]

/-- Witness for C2: a dataset holding only an `item` column is rejected
with the schema-validation error, and `Transaction_Id` is among the named
missing columns exactly because it is expected and absent. -/
theorem c2_missing_columns_schema_error_witness :
    rename_columns ⟨[("item", [.vStr "x"])]⟩ =
        .error (.schemaValidationError (missingColumnsOf ⟨[("item", [.vStr "x"])]⟩)) ∧
      ("Transaction_Id" ∈ missingColumnsOf ⟨[("item", [.vStr "x"])]⟩ ↔
        ("Transaction_Id" ∈ EXPECTED_COLS ∧
          "Transaction_Id" ∉
            ((⟨[("item", [.vStr "x"])]⟩ : DataFrame).renameColumns normalizeLabel).columns)) := by
  have h := c2_missing_columns_schema_error ⟨[("item", [.vStr "x"])]⟩
    ⟨"Transaction_Id", by decide, by decide⟩
  exact ⟨h.1, h.2 "Transaction_Id"⟩

/-- C7 counterexample: the label `" transaction   id "` does **not**
normalize to `Transaction_Id`; each of the three internal spaces becomes
its own underscore, producing `Transaction___Id`. -/
theorem c7_counterexample_multi_space_label :
    normalizeLabel " transaction   id " = "Transaction___Id" ∧
      normalizeLabel " transaction   id " ≠ "Transaction_Id" := by
  constructor
  · rfl
  · decide

/-- C7 amended: label normalization trims surrounding whitespace,
title-cases, and replaces every internal space character by one
underscore, so `" transaction   id "` maps to `Transaction___Id`, and a
label whose words are separated by single spaces, such as
`" transaction id "`, maps to `Transaction_Id`. -/
theorem c7_amended_label_normalization :
    normalizeLabel " transaction   id " = "Transaction___Id" ∧
      normalizeLabel " transaction id " = "Transaction_Id" := by
  constructor <;> rfl

/-- C8: the spec (and the source's own comment) say internal spaces of
string-role cells become underscores, but `Series.replace(' ', '_')` is a
whole-cell substitution: `"Credit Card"` is returned unchanged (never
`"Credit_Card"`), and only a cell that is exactly one space becomes
`"_"`. -/
theorem c8_value_spaces_not_replaced :
    (convert_data_types dfCreditCard).cell "Payment_Method" 0 =
        some (.vStr "Credit Card") ∧
      (convert_data_types dfCreditCard).cell "Payment_Method" 0 ≠
        some (.vStr "Credit_Card") ∧
      (convert_data_types dfCreditCard).cell "Payment_Method" 1 =
        some (.vStr "_") := by
  refine ⟨rfl, ?_, rfl⟩
  decide

/-- C4: the spec says a row whose `Item` has no underscore separator gets
a missing `Item_Number` and is never imputed.  In the source the derived
key is `.str.split('_').str[1].astype(str)`: `astype(str)` turns the NaN
into the literal string `"nan"`, which counts as present, enters the
lookup, and lets the `Coffee` row's missing price be imputed from the
unrelated `Tea` row's price 5. -/
theorem c4_malformed_item_is_imputed :
    clean_price_per_unit dfMalformedItems =
      .ok ⟨[("Item", [Value.vStr "Coffee", Value.vStr "Tea"]),
            ("Price_Per_Unit", [Value.vNum 5, Value.vNum 5])]⟩ := by
  rfl

/-- C10 (implicit in the source): `astype(str)` in `convert_data_types`
renders a missing cell of a string-role column as the literal text
`"nan"`, a present string, so no true-missing marker survives type
coercion in a string-role column. -/
theorem c10_missing_string_cell_becomes_nan_text (df : DataFrame)
    (col : String) (i : Nat) (hcol : col ∈ STRING_COLS)
    (hc : df.cell col i = some .vNA) :
    (convert_data_types df).cell col i = some (.vStr "nan") := by
  obtain ⟨hnum, hdate, -, -⟩ := string_cols_facts col hcol
  simp only [convert_data_types]
  rw [DataFrame.cell_mapCol_ne _ _ _ _ _ hdate,
    cell_mapCols_not_mem _ _ _ _ _ hnum,
    cell_mapCols_mem _ _ _ _ _ string_cols_nodup hcol, hc]
  rfl

/-- Witness for C10: a missing `Location` cell comes out of type coercion
as the text `"nan"`. -/
theorem c10_missing_string_cell_becomes_nan_text_witness :
    (convert_data_types ⟨[("Location", [Value.vNA])]⟩).cell "Location" 0 =
      some (.vStr "nan") :=
  c10_missing_string_cell_becomes_nan_text ⟨[("Location", [Value.vNA])]⟩
    "Location" 0 (by decide) rfl

/-- C3 counterexample: on `dfSentinel` the schema stage succeeds, the
auditor counts the `Location` sentinel as missing (it cleans its internal
copy), yet the dataset produced by the remaining pipeline stages still
holds the sentinel text `"unknown"` — so the audit does not hand a
sentinel-purged dataset back to the pipeline, contradicting the claimed
`(dataset, report)` contract. -/
theorem c3_counterexample_sentinel_survives :
    rename_columns dfSentinel = .ok dfSentinel ∧
      (data_overview dfSentinel "INITIAL" none).missing_values.lookup "Location" =
        some 1 ∧
      pipelineCellAfterAudit dfSentinel "Location" 0 = .ok (some (.vStr "unknown")) := by
  refine ⟨rfl, rfl, rfl⟩

/-- C3 amended: `data_overview` returns only the quality report; the
sentinel-cleaned copy is internal to the audit, so any string-role cell
(other than the one-space cell the whole-cell replacement rewrites)
survives unchanged through type coercion and price imputation into the
pipeline's final dataset — sentinel values are not purged from the
output. -/
theorem c3_audit_returns_only_report (df : DataFrame) (col : String) (i : Nat)
    (s : String) (hcol : col ∈ STRING_COLS) (hs : s ≠ " ")
    (hc : df.cell col i = some (.vStr s)) :
    (convert_data_types df).cell col i = some (.vStr s) ∧
      ∀ out, clean_price_per_unit (convert_data_types df) = .ok out →
        out.cell col i = some (.vStr s) := by
  obtain ⟨hnum, hdate, hppu, hitemnum⟩ := string_cols_facts col hcol
  have h1 : (convert_data_types df).cell col i = some (.vStr s) := by
    simp only [convert_data_types]
    rw [DataFrame.cell_mapCol_ne _ _ _ _ _ hdate,
      cell_mapCols_not_mem _ _ _ _ _ hnum,
      cell_mapCols_mem _ _ _ _ _ string_cols_nodup hcol, hc]
    simp [convertStringCell, Value.astype_str, hs]
  refine ⟨h1, fun out hout => ?_⟩
  cases hP : (convert_data_types df).getCol "Price_Per_Unit" with
  | none => simp [clean_price_per_unit, hP] at hout
  | some prices =>
      cases hI : (convert_data_types df).getCol "Item" with
      | none => simp [clean_price_per_unit, hP, hI] at hout
      | some items =>
          simp only [clean_price_per_unit, hP, hI, Except.ok.injEq] at hout
          rw [← hout]
          rw [DataFrame.cell_dropCol_ne _ _ _ _ hitemnum,
            DataFrame.cell_setCol_ne _ _ _ _ _ hppu,
            DataFrame.cell_setCol_ne _ _ _ _ _ hitemnum]
          exact h1

/-- Witness for the amended C3: the sentinel `Location` text survives type
coercion, and the final frame of the remaining stages (which equals the
input here) still carries it. -/
theorem c3_audit_returns_only_report_witness :
    (convert_data_types dfAuditWitness).cell "Location" 0 =
        some (.vStr "unknown") ∧
      dfAuditWitness.cell "Location" 0 = some (.vStr "unknown") := by
  have h := c3_audit_returns_only_report dfAuditWitness "Location" 0 "unknown"
    (by decide) (by decide) rfl
  exact ⟨h.1, h.2 dfAuditWitness rfl⟩

theorem DataFrame.cell_setCol_self (df : DataFrame) (c : String)
    (s : List Value) (i : Nat) :
    (df.setCol c s).cell c i = s[i]? := by
  simp [DataFrame.cell, DataFrame.getCol_setCol]

/-- C9: type coercion is total — every numeric-role cell comes out of
`convert_data_types` as a parsed number or the missing marker (never an
exception value), a numeric-role cell holding the text `"unknown"` comes
out missing (not `0`, not any number), and every `Transaction_Date` cell
comes out as a parsed date or the missing marker. -/
theorem c9_type_coercion_never_raises (df : DataFrame) (col : String) (i : Nat)
    (v : Value) (hcol : col ∈ NUMERIC_COLS) (hv : df.cell col i = some v) :
    ((convert_data_types df).cell col i = some .vNA ∨
        ∃ q, (convert_data_types df).cell col i = some (.vNum q)) ∧
      (v = .vStr "unknown" → (convert_data_types df).cell col i = some .vNA) ∧
      (∀ w, df.cell "Transaction_Date" i = some w →
        ((convert_data_types df).cell "Transaction_Date" i = some .vNA ∨
          ∃ d, (convert_data_types df).cell "Transaction_Date" i = some (.vDate d))) := by
  obtain ⟨hstr, hdate⟩ := numeric_cols_facts col hcol
  have hcell : (convert_data_types df).cell col i = some (toNumericCoerce v) := by
    simp only [convert_data_types]
    rw [DataFrame.cell_mapCol_ne _ _ _ _ _ hdate,
      cell_mapCols_mem _ _ _ _ _ numeric_cols_nodup hcol,
      cell_mapCols_not_mem _ _ _ _ _ hstr, hv]
    rfl
  refine ⟨?_, ?_, ?_⟩
  · rw [hcell]
    cases v with
    | vNum q => exact Or.inr ⟨q, rfl⟩
    | vNA => exact Or.inl rfl
    | vDate d => exact Or.inl rfl
    | vStr s =>
        cases hps : pyParseFloat s with
        | none => exact Or.inl (by simp [toNumericCoerce, hps])
        | some q => exact Or.inr ⟨q, by simp [toNumericCoerce, hps]⟩
  · rintro rfl
    rw [hcell]
    have hu : pyParseFloat "unknown" = none := by decide
    simp [toNumericCoerce, hu]
  · intro w hw
    have hwcell : (convert_data_types df).cell "Transaction_Date" i =
        some (toDatetimeCoerce w) := by
      simp only [convert_data_types]
      rw [DataFrame.cell_mapCol_self,
        cell_mapCols_not_mem _ _ _ _ _ (by decide),
        cell_mapCols_not_mem _ _ _ _ _ (by decide), hw]
      rfl
    rw [hwcell]
    cases w with
    | vDate d => exact Or.inr ⟨d, rfl⟩
    | vNA => exact Or.inl rfl
    | vNum q => exact Or.inr ⟨pyFloatStr q, rfl⟩
    | vStr s =>
        cases hps : pyParseDate s with
        | none => exact Or.inl (by simp [toDatetimeCoerce, hps])
        | some d => exact Or.inr ⟨d, by simp [toDatetimeCoerce, hps]⟩

/-- Witness for C9: a `Quantity` cell holding `"unknown"` coerces to
missing, and an unparseable `Transaction_Date` cell coerces to missing. -/
theorem c9_type_coercion_never_raises_witness :
    (convert_data_types ⟨[("Quantity", [Value.vStr "unknown"]),
        ("Transaction_Date", [Value.vStr "not a date"])]⟩).cell "Quantity" 0 =
        some .vNA ∧
      (convert_data_types ⟨[("Quantity", [Value.vStr "unknown"]),
        ("Transaction_Date", [Value.vStr "not a date"])]⟩).cell
          "Transaction_Date" 0 = some .vNA := by
  have h := c9_type_coercion_never_raises
    ⟨[("Quantity", [Value.vStr "unknown"]),
      ("Transaction_Date", [Value.vStr "not a date"])]⟩
    "Quantity" 0 (Value.vStr "unknown") (by decide) rfl
  refine ⟨h.2.1 rfl, ?_⟩
  rcases h.2.2 (Value.vStr "not a date") rfl with hd | ⟨d, hd⟩
  · exact hd
  · have hval : (convert_data_types ⟨[("Quantity", [Value.vStr "unknown"]),
        ("Transaction_Date", [Value.vStr "not a date"])]⟩).cell
          "Transaction_Date" 0 = some .vNA := by decide
    rw [hval] at hd
    simp at hd

/-- C5: a row whose `Price_Per_Unit` is missing and whose derived item
number is present receives exactly the price-lookup entry for that key
when one exists, and stays missing when the lookup has no entry for it
(`.map` yields `NaN` on an absent key). -/
theorem c5_missing_price_imputed_from_lookup (df : DataFrame)
    (prices items : List Value) (i : Nat) (k : Value)
    (hp : df.getCol "Price_Per_Unit" = some prices)
    (hi : df.getCol "Item" = some items)
    (hmiss : prices[i]? = some .vNA)
    (hk : (items.map deriveItemNumber)[i]? = some k)
    (hkNA : k.isNA = false) :
    (clean_price_per_unit df).map (fun out => out.cell "Price_Per_Unit" i) =
      .ok (some ((lastLookup (priceMapOf (items.map deriveItemNumber) prices) k).getD
        .vNA)) := by
  simp only [clean_price_per_unit, hp, hi, Except.map]
  have hzip : ((items.map deriveItemNumber).zip prices)[i]? = some (k, Value.vNA) :=
    List.getElem?_zip_eq_some.mpr ⟨hk, hmiss⟩
  rw [DataFrame.cell_dropCol_ne _ _ _ _ (by decide),
    DataFrame.cell_setCol_self]
  simp only [imputePrices]
  rw [List.getElem?_map, hzip]
  simp [hkNA]

/-- Witness for C5: the unpriced `Item_7` row receives 3.5 from the other
`Item_7` row of the batch, and the lone `Item_9` row stays missing. -/
theorem c5_missing_price_imputed_from_lookup_witness :
    (clean_price_per_unit dfRoundTrip).map
        (fun out => out.cell "Price_Per_Unit" 0) = .ok (some (.vNum (7 / 2))) ∧
      (clean_price_per_unit dfLoneItem).map
        (fun out => out.cell "Price_Per_Unit" 0) = .ok (some .vNA) := by
  constructor
  · have h := c5_missing_price_imputed_from_lookup dfRoundTrip
      [Value.vNA, Value.vNum (7 / 2)] [Value.vStr "Item_7", Value.vStr "Item_7"]
      0 (Value.vStr "7") rfl rfl rfl rfl rfl
    rw [h]
    rfl
  · have h := c5_missing_price_imputed_from_lookup dfLoneItem
      [Value.vNA] [Value.vStr "Item_9"] 0 (Value.vStr "9") rfl rfl rfl rfl rfl
    rw [h]
    rfl

/-- C6: price imputation never decreases the count of non-missing
`Price_Per_Unit` cells, and every row whose price was already present is
returned with that value unchanged. -/
theorem c6_imputation_preserves_present_prices (df out : DataFrame)
    (prices items : List Value)
    (hp : df.getCol "Price_Per_Unit" = some prices)
    (hi : df.getCol "Item" = some items)
    (hlen : items.length = prices.length)
    (hout : clean_price_per_unit df = .ok out) :
    (∀ (i : Nat) (v : Value), prices[i]? = some v → v ≠ .vNA →
        out.cell "Price_Per_Unit" i = some v) ∧
      df.nonNACount "Price_Per_Unit" ≤ out.nonNACount "Price_Per_Unit" := by
  simp only [clean_price_per_unit, hp, hi, Except.ok.injEq] at hout
  have hcol : out.getCol "Price_Per_Unit" =
      some (imputePrices (priceMapOf (items.map deriveItemNumber) prices)
        (items.map deriveItemNumber) prices) := by
    rw [← hout, DataFrame.getCol_dropCol, DataFrame.getCol_setCol]
    simp
  constructor
  · intro i v hv hvna
    have hii : i < items.length := by
      rw [hlen]
      exact (List.getElem?_eq_some.mp hv).1
    have hk : (items.map deriveItemNumber)[i]? = some (deriveItemNumber items[i]) := by
      rw [List.getElem?_map, List.getElem?_eq_getElem hii]
      rfl
    have hzip : ((items.map deriveItemNumber).zip prices)[i]? =
        some (deriveItemNumber items[i], v) :=
      List.getElem?_zip_eq_some.mpr ⟨hk, hv⟩
    have hvNA : v.isNA = false := (Value.isNA_eq_false_iff v).mpr hvna
    simp only [DataFrame.cell, hcol]
    simp only [imputePrices]
    rw [List.getElem?_map, hzip]
    simp [hvNA]
  · simp only [DataFrame.nonNACount, hp, hcol, Option.getD_some]
    apply countP_le_of_pointwise
    · simp [imputePrices, hlen]
    · intro i a ha hpa
      have hii : i < items.length := by
        rw [hlen]
        exact (List.getElem?_eq_some.mp ha).1
      have hk : (items.map deriveItemNumber)[i]? =
          some (deriveItemNumber items[i]) := by
        rw [List.getElem?_map, List.getElem?_eq_getElem hii]
        rfl
      have hzip : ((items.map deriveItemNumber).zip prices)[i]? =
          some (deriveItemNumber items[i], a) :=
        List.getElem?_zip_eq_some.mpr ⟨hk, ha⟩
      have haNA : a.isNA = false := by simpa using hpa
      refine ⟨a, ?_, hpa⟩
      simp only [imputePrices]
      rw [List.getElem?_map, hzip]
      simp [haNA]

/-- Witness for C6: the already-present price 2 is returned unchanged and
the non-missing count does not decrease. -/
theorem c6_imputation_preserves_present_prices_witness :
    outPresentPrice.cell "Price_Per_Unit" 0 = some (.vNum 2) ∧
      dfPresentPrice.nonNACount "Price_Per_Unit" ≤
        outPresentPrice.nonNACount "Price_Per_Unit" := by
  have h := c6_imputation_preserves_present_prices dfPresentPrice outPresentPrice
    [Value.vNum 2, Value.vNA] [Value.vStr "Item_7", Value.vStr "Item_7"]
    rfl rfl rfl rfl
  exact ⟨h.1 0 (Value.vNum 2) rfl (by decide), h.2⟩
